import Mathlib

/-!
Verification of the ESP32 voice assistant firmware
(`examples/esp32-voice-assistant/src/main.cpp` with `config.h`).

The development shallowly embeds the firmware's pure computations and the
controller's control flow into Lean.  Machine integers are modelled by `Nat`
and `Int` with explicit truncation (`% 2 ^ 32`) where the C code can wrap.
The hardware and network environment (button edges, Wi-Fi status, I2S read
results, the HTTP peer) is supplied as explicit input data, so every
definition is executable.
-/

namespace VoiceAssistant

/-! ### Configuration constants (config.h) -/

def SAMPLE_RATE : Nat := 16000
def BITS_PER_SAMPLE : Nat := 16
def CHANNELS : Nat := 1
def RECORD_TIME_MAX_SEC : Nat := 30

/-- RECORD_BUFFER_SIZE = SAMPLE_RATE * 2 * RECORD_TIME_MAX_SEC (bytes). -/
def RECORD_BUFFER_SIZE : Nat := SAMPLE_RATE * 2 * RECORD_TIME_MAX_SEC

/-- Total capture buffer capacity: `ps_malloc(RECORD_BUFFER_SIZE + 44)`. -/
def CAP : Nat := RECORD_BUFFER_SIZE + 44

def MIC_GAIN_FACTOR : Int := 4

def BUTTON_DEBOUNCE_MS : Nat := 50

def MIN_CAPTURE : Nat := 1000

/-! ### System state (main.cpp, enum SystemState) -/

inductive SystemState where
  | INIT
  | CONNECTING
  | IDLE
  | RECORDING
  | PROCESSING
  | PLAYING
  | ERROR
deriving DecidableEq, Repr

/-! ### WAV header creation (main.cpp, createWavHeader, lines 577-615)

The capture buffer is modelled as a total function from byte offsets to byte
values.  `createWavHeader` performs 44 single-byte stores at offsets 0..43;
we model the store sequence literally as a list of (offset, value) pairs
applied in program order. -/

/-- Sequence of single-byte stores performed by `createWavHeader` for a given
`dataSize`, in program order.  `fileSize` is the C `uint32_t dataSize + 36`
(hence the `% 2 ^ 32`); byte extraction `(x >> 8k) & 0xFF` is
`x / 2 ^ (8 * k) % 256`. -/
def wavHeaderWrites (dataSize : Nat) : List (Nat × Nat) :=
  let fileSize := (dataSize + 36) % 4294967296
  let byteRate := SAMPLE_RATE * CHANNELS * BITS_PER_SAMPLE / 8
  let blockAlign := CHANNELS * BITS_PER_SAMPLE / 8
  [ (0, 82), (1, 73), (2, 70), (3, 70),                -- "RIFF"
    (4, fileSize % 256),
    (5, fileSize / 256 % 256),
    (6, fileSize / 65536 % 256),
    (7, fileSize / 16777216 % 256),
    (8, 87), (9, 65), (10, 86), (11, 69),              -- "WAVE"
    (12, 102), (13, 109), (14, 116), (15, 32),         -- "fmt "
    (16, 16), (17, 0), (18, 0), (19, 0),               -- Subchunk1Size = 16
    (20, 1), (21, 0),                                  -- AudioFormat = 1 (PCM)
    (22, CHANNELS), (23, 0),                           -- NumChannels
    (24, SAMPLE_RATE % 256),
    (25, SAMPLE_RATE / 256 % 256),
    (26, SAMPLE_RATE / 65536 % 256),
    (27, SAMPLE_RATE / 16777216 % 256),
    (28, byteRate % 256),
    (29, byteRate / 256 % 256),
    (30, byteRate / 65536 % 256),
    (31, byteRate / 16777216 % 256),
    (32, blockAlign % 256),
    (33, blockAlign / 256 % 256),
    (34, BITS_PER_SAMPLE), (35, 0),
    (36, 100), (37, 97), (38, 116), (39, 97),          -- "data"
    (40, dataSize % 256),
    (41, dataSize / 256 % 256),
    (42, dataSize / 65536 % 256),
    (43, dataSize / 16777216 % 256) ]

/-- Apply a list of single-byte stores to a buffer, in order. -/
def writeBytes (buf : Nat → Nat) : List (Nat × Nat) → (Nat → Nat)
  | [] => buf
  | (i, v) :: rest => writeBytes (Function.update buf i v) rest

/-- The buffer after `createWavHeader(buffer, dataSize)`. -/
def createWavHeader (buf : Nat → Nat) (dataSize : Nat) : Nat → Nat :=
  writeBytes buf (wavHeaderWrites dataSize)

/-- Decode four consecutive bytes as a little-endian 32-bit value. -/
def decodeLE32 (f : Nat → Nat) (off : Nat) : Nat :=
  f off + 256 * f (off + 1) + 65536 * f (off + 2) + 16777216 * f (off + 3)

/-- An all-zero buffer, used to instantiate buffer-parametric theorems. -/
def zeroBuf : Nat → Nat := fun _ => 0

/-! ### Lemmas about the WAV framer -/

/-- A store list whose offsets all differ from `i` leaves the byte at `i`
unchanged. -/
theorem writeBytes_eq_of_ne (ws : List (Nat × Nat)) (buf : Nat → Nat) (i : Nat)
    (h : ∀ p ∈ ws, p.1 ≠ i) : writeBytes buf ws i = buf i := by
  induction ws generalizing buf with
  | nil => rfl
  | cons p rest ih =>
    obtain ⟨a, v⟩ := p
    have ha : a ≠ i := h (a, v) (List.mem_cons_self _ _)
    simp only [writeBytes]
    rw [ih _ (fun q hq => h q (List.mem_cons_of_mem _ hq))]
    exact Function.update_noteq (Ne.symm ha) v buf

/-- The offsets stored to by the WAV framer are exactly 0..43. -/
theorem wavHeaderWrites_fst (n : Nat) :
    (wavHeaderWrites n).map Prod.fst = List.range 44 := by
  simp [wavHeaderWrites, List.range_succ]

/-- C2.  For every data size `n ≤ CAP - 44 = RECORD_BUFFER_SIZE`, the 44-byte
header written by `createWavHeader` has bytes 0-3 equal to "RIFF", bytes 4-7
equal to `n + 36` as a little-endian u32, bytes 8-11 equal to "WAVE", format
fields PCM (bytes 20-21 = 1), mono (bytes 22-23 = 1), sample rate 16000
(bytes 24-27 LE, with byte rate 32000 and block align 2), 16 bits per sample
(bytes 34-35), bytes 36-39 equal to "data", and bytes 40-43 equal to `n` as a
little-endian u32. -/
theorem createWavHeader_fields (buf : Nat → Nat) (n : Nat)
    (h : n ≤ RECORD_BUFFER_SIZE) :
    createWavHeader buf n 0 = 82 ∧ createWavHeader buf n 1 = 73 ∧
    createWavHeader buf n 2 = 70 ∧ createWavHeader buf n 3 = 70 ∧
    decodeLE32 (createWavHeader buf n) 4 = n + 36 ∧
    createWavHeader buf n 8 = 87 ∧ createWavHeader buf n 9 = 65 ∧
    createWavHeader buf n 10 = 86 ∧ createWavHeader buf n 11 = 69 ∧
    createWavHeader buf n 20 = 1 ∧ createWavHeader buf n 21 = 0 ∧
    createWavHeader buf n 22 = 1 ∧ createWavHeader buf n 23 = 0 ∧
    decodeLE32 (createWavHeader buf n) 24 = 16000 ∧
    decodeLE32 (createWavHeader buf n) 28 = 32000 ∧
    createWavHeader buf n 32 = 2 ∧ createWavHeader buf n 33 = 0 ∧
    createWavHeader buf n 34 = 16 ∧ createWavHeader buf n 35 = 0 ∧
    createWavHeader buf n 36 = 100 ∧ createWavHeader buf n 37 = 97 ∧
    createWavHeader buf n 38 = 116 ∧ createWavHeader buf n 39 = 97 ∧
    decodeLE32 (createWavHeader buf n) 40 = n := by
  have h' : n ≤ 960000 := h
  simp only [createWavHeader, wavHeaderWrites, writeBytes, Function.update, decodeLE32,
    SAMPLE_RATE, CHANNELS, BITS_PER_SAMPLE]
  norm_num
  omega

/-- Witness for C2 at the maximal data size `n = 960000`. -/
theorem createWavHeader_fields_witness :
    960000 ≤ RECORD_BUFFER_SIZE ∧
    (createWavHeader zeroBuf 960000 0 = 82 ∧ createWavHeader zeroBuf 960000 1 = 73 ∧
    createWavHeader zeroBuf 960000 2 = 70 ∧ createWavHeader zeroBuf 960000 3 = 70 ∧
    decodeLE32 (createWavHeader zeroBuf 960000) 4 = 960000 + 36 ∧
    createWavHeader zeroBuf 960000 8 = 87 ∧ createWavHeader zeroBuf 960000 9 = 65 ∧
    createWavHeader zeroBuf 960000 10 = 86 ∧ createWavHeader zeroBuf 960000 11 = 69 ∧
    createWavHeader zeroBuf 960000 20 = 1 ∧ createWavHeader zeroBuf 960000 21 = 0 ∧
    createWavHeader zeroBuf 960000 22 = 1 ∧ createWavHeader zeroBuf 960000 23 = 0 ∧
    decodeLE32 (createWavHeader zeroBuf 960000) 24 = 16000 ∧
    decodeLE32 (createWavHeader zeroBuf 960000) 28 = 32000 ∧
    createWavHeader zeroBuf 960000 32 = 2 ∧ createWavHeader zeroBuf 960000 33 = 0 ∧
    createWavHeader zeroBuf 960000 34 = 16 ∧ createWavHeader zeroBuf 960000 35 = 0 ∧
    createWavHeader zeroBuf 960000 36 = 100 ∧ createWavHeader zeroBuf 960000 37 = 97 ∧
    createWavHeader zeroBuf 960000 38 = 116 ∧ createWavHeader zeroBuf 960000 39 = 97 ∧
    decodeLE32 (createWavHeader zeroBuf 960000) 40 = 960000) :=
  ⟨by decide, createWavHeader_fields zeroBuf 960000 (by decide)⟩

/-- C10.  `createWavHeader` writes only the 44 bytes at offsets 0 through 43:
every byte at offset 44 and beyond is left unchanged. -/
theorem createWavHeader_frame (buf : Nat → Nat) (n i : Nat) (h : 44 ≤ i) :
    createWavHeader buf n i = buf i := by
  apply writeBytes_eq_of_ne
  intro p hp
  have hm : p.1 ∈ (wavHeaderWrites n).map Prod.fst := List.mem_map_of_mem _ hp
  rw [wavHeaderWrites_fst] at hm
  have := List.mem_range.mp hm
  omega

/-- Witness for C10 at offset 44 over a non-constant buffer. -/
theorem createWavHeader_frame_witness :
    44 ≤ 44 ∧ createWavHeader (fun j => j + 7) 5 44 = 44 + 7 :=
  ⟨by decide, createWavHeader_frame (fun j => j + 7) 5 44 (by decide)⟩

/-! ### Audio capture (main.cpp, recordAudio, lines 509-571)

One `CaptureEv` describes one iteration of the `while (digitalRead(BUTTON_PIN)
== LOW)` loop: `timeUp` is the outcome of the
`millis() - recordStart > RECORD_TIME_MAX_SEC * 1000` test, `readOk` is
`result == ESP_OK` for the `i2s_read` call, and `avail` is the number of bytes
the I2S driver has ready for that call.  The driver never returns more than
the requested size, so `bytesRead = min avail toRead`.  Exhaustion of the
event list models the button line reading HIGH (button released). -/

structure CaptureEv where
  timeUp : Bool
  readOk : Bool
  avail : Nat
deriving Repr, DecidableEq

/-- The capture loop of `recordAudio`, threading `totalBytesRead`. -/
def recordAudioLoop (maxSize : Nat) : List CaptureEv → Nat → Nat
  | [], total => total
  | e :: rest, total =>
    if e.timeUp then total
    else
      let toRead := min 4096 (maxSize - total)
      if toRead = 0 then total
      else
        let bytesRead := if e.readOk then min e.avail toRead else 0
        let total' := if 0 < bytesRead then total + bytesRead else total
        recordAudioLoop maxSize rest total'

/-- The successive values of `totalBytesRead` after each executed iteration of
the capture loop (the running write offset into the sample region). -/
def recordAudioTrace (maxSize : Nat) : List CaptureEv → Nat → List Nat
  | [], _ => []
  | e :: rest, total =>
    if e.timeUp then []
    else
      let toRead := min 4096 (maxSize - total)
      if toRead = 0 then []
      else
        let bytesRead := if e.readOk then min e.avail toRead else 0
        let total' := if 0 < bytesRead then total + bytesRead else total
        total' :: recordAudioTrace maxSize rest total'

/-- `recordAudio(recordBuffer + 44, RECORD_BUFFER_SIZE)` as called from
`processVoiceInteraction` (main.cpp line 437). -/
def recordAudio (events : List CaptureEv) : Nat :=
  recordAudioLoop RECORD_BUFFER_SIZE events 0

/-- The capture loop never pushes `totalBytesRead` above the capacity. -/
theorem recordAudioLoop_le (maxSize : Nat) (events : List CaptureEv) :
    ∀ total : Nat, total ≤ maxSize → recordAudioLoop maxSize events total ≤ maxSize := by
  induction events with
  | nil => intro total h; simpa [recordAudioLoop] using h
  | cons e rest ih =>
    intro total h
    simp only [recordAudioLoop]
    split
    · exact h
    · split
      · exact h
      · apply ih
        split <;> (try split) <;> omega

/-- Every intermediate value of `totalBytesRead` stays within the capacity. -/
theorem recordAudioTrace_le (maxSize : Nat) (events : List CaptureEv) :
    ∀ total : Nat, total ≤ maxSize →
      ∀ x ∈ recordAudioTrace maxSize events total, x ≤ maxSize := by
  induction events with
  | nil => intro total _ x hx; simp [recordAudioTrace] at hx
  | cons e rest ih =>
    intro total h x hx
    simp only [recordAudioTrace] at hx
    split at hx
    · simp at hx
    · split at hx
      · simp at hx
      · have hle : (if 0 < (if e.readOk then min e.avail (min 4096 (maxSize - total)) else 0)
            then total + (if e.readOk then min e.avail (min 4096 (maxSize - total)) else 0)
            else total) ≤ maxSize := by
          split <;> (try split) <;> omega
        rcases List.mem_cons.mp hx with rfl | hx'
        · exact hle
        · exact ih _ hle x hx'

/-- C4.  For every run of `recordAudio` with capacity
`maxSize = RECORD_BUFFER_SIZE = CAP - 44`, the returned byte count is between
0 and `CAP - 44` inclusive, and every intermediate value of the running write
offset stays at or below `CAP - 44`. -/
theorem recordAudio_bound (events : List CaptureEv) :
    recordAudio events ≤ CAP - 44 ∧
    ∀ x ∈ recordAudioTrace RECORD_BUFFER_SIZE events 0, x ≤ CAP - 44 := by
  have hcap : CAP - 44 = RECORD_BUFFER_SIZE := by decide
  rw [hcap]
  exact ⟨recordAudioLoop_le _ events 0 (Nat.zero_le _),
    recordAudioTrace_le _ events 0 (Nat.zero_le _)⟩

/-- Concrete capture run used to witness C4. -/
def captureEvsW : List CaptureEv :=
  [⟨false, true, 5000⟩, ⟨false, true, 10000000⟩, ⟨false, false, 2000⟩]

/-- Witness for C4: a concrete three-iteration run, with the intermediate
offset 8192 taken from its trace. -/
theorem recordAudio_bound_witness :
    recordAudio captureEvsW ≤ CAP - 44 ∧
    8192 ∈ recordAudioTrace RECORD_BUFFER_SIZE captureEvsW 0 ∧ 8192 ≤ CAP - 44 :=
  ⟨(recordAudio_bound captureEvsW).1, by decide,
    (recordAudio_bound captureEvsW).2 8192 (by decide)⟩

/-! ### Per-sample gain (main.cpp, recordAudio, lines 544-549) -/

/-- Gain applied to each 16-bit sample inside the capture loop:
`int32_t sample = newSamples[i] * MIC_GAIN_FACTOR;` followed by clamping to
[-32768, 32767] and the store `newSamples[i] = (int16_t)sample;`.  The C
multiplication is done in (at least) 32-bit `int` after integer promotion of
the `int16_t` operand. -/
def applyGain (x : Int) : Int :=
  let sample := x * MIC_GAIN_FACTOR
  if sample > 32767 then 32767
  else if sample < -32768 then -32768
  else sample

/-- C5.  For every signed 16-bit sample `x`, the value stored back in place
equals `clamp(x * MIC_GAIN_FACTOR, -32768, 32767)`, and the intermediate
product fits in a 32-bit `int`, so no wrap-around occurs. -/
theorem applyGain_clamp (x : Int) (h1 : -32768 ≤ x) (h2 : x ≤ 32767) :
    applyGain x = max (-32768) (min 32767 (x * MIC_GAIN_FACTOR)) ∧
    -(2 ^ 31) ≤ x * MIC_GAIN_FACTOR ∧ x * MIC_GAIN_FACTOR < 2 ^ 31 := by
  have h31 : (2 : Int) ^ 31 = 2147483648 := by norm_num
  unfold applyGain MIC_GAIN_FACTOR
  dsimp only
  refine ⟨?_, by omega, by omega⟩
  split_ifs <;> omega

/-- Witness for C5 at the sample value 30000 (which saturates high). -/
theorem applyGain_clamp_witness :
    (-32768 ≤ (30000 : Int) ∧ (30000 : Int) ≤ 32767) ∧
    (applyGain 30000 = max (-32768) (min 32767 (30000 * MIC_GAIN_FACTOR)) ∧
      -(2 ^ 31) ≤ (30000 : Int) * MIC_GAIN_FACTOR ∧
      (30000 : Int) * MIC_GAIN_FACTOR < 2 ^ 31) :=
  ⟨⟨by decide, by decide⟩, applyGain_clamp 30000 (by decide) (by decide)⟩

/-! ### Multipart request framing (main.cpp, sendVoiceRequest, lines 638-698)

The C++ `String` parts are built from ASCII literals, the boundary (ASCII
digits appended to an ASCII prefix) and the stored session identifier; we
model them as Lean strings and convert to transmitted bytes with `strBytes`,
which maps each character to its code point (identical to the byte encoding
for the ASCII data involved). -/

/-- Bytes of a string, one per character. -/
def strBytes (s : String) : List Nat := s.data.map Char.toNat

/-- Boundary: `"----ESP32Boundary" + String(millis())`. -/
def boundaryString (t : Nat) : String := "----ESP32Boundary" ++ toString t

/-- Part A (`bodyStart`): multipart opening line, the audio form-data header,
its content type, blank line. -/
def bodyStart (boundary : String) : String :=
  "--" ++ boundary ++ "\r\n"
  ++ "Content-Disposition: form-data; name=\"audio\"; filename=\"recording.wav\"\r\n"
  ++ "Content-Type: audio/wav\r\n\r\n"

/-- Part B (`bodyMid`): CRLF, then a `session_id` form part if a session is
cached, then the `use_rag` form part with literal value `true`. -/
def bodyMid (boundary sessionId : String) : String :=
  "\r\n"
  ++ (if sessionId.length > 0 then
        "--" ++ boundary ++ "\r\n"
        ++ "Content-Disposition: form-data; name=\"session_id\"\r\n\r\n"
        ++ sessionId ++ "\r\n"
      else "")
  ++ "--" ++ boundary ++ "\r\n"
  ++ "Content-Disposition: form-data; name=\"use_rag\"\r\n\r\n"
  ++ "true\r\n"

/-- Part C (`bodyEnd`): the closing boundary line. -/
def bodyEnd (boundary : String) : String := "--" ++ boundary ++ "--\r\n"

/-- `totalSize`, the value sent as `Content-Length`
(`bodyStart.length() + wavSize + bodyMid.length() + bodyEnd.length()`). -/
def totalSize (boundary sessionId : String) (wavSize : Nat) : Nat :=
  (bodyStart boundary).length + wavSize + (bodyMid boundary sessionId).length
    + (bodyEnd boundary).length

/-- The WAV upload loop: `while (sent < wavSize)` send
`min(4096, wavSize - sent)` bytes starting at offset `sent`.  Returns the
concatenation of all chunks written to the socket. -/
def sendWavChunks (wav : List Nat) (sent : Nat) : List Nat :=
  if sent < wav.length then
    ((wav.drop sent).take (min 4096 (wav.length - sent)))
      ++ sendWavChunks wav (sent + min 4096 (wav.length - sent))
  else []
termination_by wav.length - sent
decreasing_by omega

/-- The body bytes written to the socket by `sendVoiceRequest`, in order:
`client.print(bodyStart)`, the chunked WAV writes, `client.print(bodyMid)`,
`client.print(bodyEnd)`. -/
def transmittedBody (boundary sessionId : String) (wav : List Nat) : List Nat :=
  strBytes (bodyStart boundary) ++ sendWavChunks wav 0
    ++ strBytes (bodyMid boundary sessionId) ++ strBytes (bodyEnd boundary)

/-- The chunked upload loop transmits exactly the bytes from offset `sent`
to the end of the WAV buffer. -/
theorem sendWavChunks_eq_drop (wav : List Nat) (sent : Nat) :
    sendWavChunks wav sent = wav.drop sent := by
  rw [sendWavChunks]
  split
  · next h =>
    rw [sendWavChunks_eq_drop wav (sent + min 4096 (wav.length - sent))]
    have h2 : wav.drop (sent + min 4096 (wav.length - sent)) =
        (wav.drop sent).drop (min 4096 (wav.length - sent)) := by
      rw [List.drop_drop, Nat.add_comm]
    rw [h2, List.take_append_drop]
  · next h =>
    symm
    apply List.drop_eq_nil_of_le
    omega
termination_by wav.length - sent
decreasing_by omega

/-- C3.  For every WAV payload, cached session identifier and boundary, the
transmitted body is exactly part A, the WAV bytes, part B, part C in order,
and the declared `Content-Length` (`totalSize`) equals both the byte sum
`|A| + wavSize + |B| + |C|` and the exact length of the transmitted body. -/
theorem transmittedBody_spec (boundary sessionId : String) (wav : List Nat) :
    transmittedBody boundary sessionId wav =
      strBytes (bodyStart boundary) ++ wav ++ strBytes (bodyMid boundary sessionId)
        ++ strBytes (bodyEnd boundary) ∧
    totalSize boundary sessionId wav.length =
      (strBytes (bodyStart boundary)).length + wav.length
        + (strBytes (bodyMid boundary sessionId)).length
        + (strBytes (bodyEnd boundary)).length ∧
    totalSize boundary sessionId wav.length =
      (transmittedBody boundary sessionId wav).length := by
  have hb : transmittedBody boundary sessionId wav =
      strBytes (bodyStart boundary) ++ wav ++ strBytes (bodyMid boundary sessionId)
        ++ strBytes (bodyEnd boundary) := by
    rw [transmittedBody, sendWavChunks_eq_drop, List.drop_zero, List.append_assoc,
      List.append_assoc]
  have hlen : ∀ s : String, (strBytes s).length = s.length := by
    intro s
    rw [strBytes, List.length_map]
    rfl
  refine ⟨hb, ?_, ?_⟩
  · rw [totalSize, hlen, hlen, hlen]
  · rw [hb, totalSize]
    simp [hlen]
    ring

/-! ### HTTP response handling and body download
(main.cpp, sendVoiceRequest, lines 700-806)

The peer's behaviour is environment data: whether the TCP/TLS connect
succeeded, whether any response byte arrived before `HTTP_RESPONSE_TIMEOUT_MS`,
the parsed status code, the `X-Session-Id` header value (empty if absent), the
parsed `Content-Length` (0 if absent), whether the SPIFFS file opened, and the
download loop iterations.  Each download iteration is a pair
`(connected, avail)`: the value of `client.connected()` and the number of body
bytes the socket has buffered for that pass.  `readBytes` returns at most the
requested size, and the SPIFFS write is modelled as complete
(`written = got`).  Exhaustion of the iteration list models a closed,
drained connection. -/

/-- The body download loop:
`while (bytesWritten < contentLength && client.connected())`, reading
`min(4096, contentLength - bytesWritten)` bytes when data is available and
appending them to the response file.  Returns the final `bytesWritten`. -/
def downloadLoop (contentLength : Nat) : List (Bool × Nat) → Nat → Nat
  | [], bw => bw
  | e :: rest, bw =>
    if bw < contentLength ∧ e.1 = true then
      downloadLoop contentLength rest (bw + min e.2 (min 4096 (contentLength - bw)))
    else bw

/-- Environment of one `sendVoiceRequest` call. -/
structure HttpEnv where
  connectOk : Bool
  responded : Bool
  statusCode : Nat
  xSessionId : String
  contentLength : Nat
  fileOpenOk : Bool
  bodyEvents : List (Bool × Nat)
deriving Repr, DecidableEq

/-- Result of `sendVoiceRequest`: the returned `bool` and the
`responseSessionId` out-parameter (set from the `X-Session-Id` header once the
header block has been parsed, i.e. on every path past the status check).
The final return is the literal `return bytesWritten > 0;` of the source. -/
def sendVoiceRequest (env : HttpEnv) : Bool × String :=
  if env.connectOk = false then (false, "")
  else if env.responded = false then (false, "")
  else if env.statusCode ≠ 200 then (false, "")
  else if 0 < env.contentLength then
    if env.fileOpenOk = false then (false, env.xSessionId)
    else (decide (0 < downloadLoop env.contentLength env.bodyEvents 0), env.xSessionId)
  else (false, env.xSessionId)

/-! ### The voice interaction flow
(main.cpp, processVoiceInteraction, lines 429-503) -/

/-- The session identifier in RAM (`sessionId`) and in the non-volatile store
(namespace `voice_asst`, key `session_id`). -/
structure Controller where
  sessionId : String
  nvsSession : String
deriving Repr, DecidableEq

/-- Environment of one `processVoiceInteraction` call: the byte count
returned by `recordAudio`, the HTTP environment, and whether
`playAudioResponse` succeeded. -/
structure InteractionEnv where
  recorded : Nat
  http : HttpEnv
  playOk : Bool
deriving Repr, DecidableEq

/-- `processVoiceInteraction`: returns the controller state after the
interaction, the sequence of `currentState` assignments made during it, and
whether `sendVoiceRequest` was reached. -/
def processVoiceInteraction (c : Controller) (env : InteractionEnv) :
    Controller × List SystemState × Bool :=
  if env.recorded < 1000 then
    (c, [SystemState.RECORDING, SystemState.IDLE], false)
  else
    let r := sendVoiceRequest env.http
    if r.1 = false then
      (c, [SystemState.RECORDING, SystemState.PROCESSING, SystemState.ERROR,
           SystemState.IDLE], true)
    else
      let c' := if 0 < r.2.length ∧ r.2 ≠ c.sessionId
                then { sessionId := r.2, nvsSession := r.2 }
                else c
      if env.playOk = false then
        (c', [SystemState.RECORDING, SystemState.PROCESSING, SystemState.PLAYING,
              SystemState.ERROR, SystemState.IDLE], true)
      else
        (c', [SystemState.RECORDING, SystemState.PROCESSING, SystemState.PLAYING,
              SystemState.IDLE], true)

/-! ### Theorems about download truncation (C1) -/

/-- Environment of claim C1's scenario S5: status 200, `Content-Length: 10000`,
connection delivers 4096 body bytes and then closes. -/
def truncEnv : HttpEnv :=
  { connectOk := true, responded := true, statusCode := 200, xSessionId := "abc",
    contentLength := 10000, fileOpenOk := true, bodyEvents := [(true, 4096), (false, 0)] }

/-- C1 counterexample.  With `Content-Length = 10000 > 0` and the connection
closing after 4096 < 10000 body bytes, `sendVoiceRequest` returns success (the
source ends with `return bytesWritten > 0;`), and the interaction proceeds to
PLAYING rather than being abandoned — contradicting the claim that a short
read returns failure. -/
theorem sendVoiceRequest_truncated_cex :
    0 < truncEnv.contentLength ∧
    downloadLoop truncEnv.contentLength truncEnv.bodyEvents 0 = 4096 ∧
    4096 < truncEnv.contentLength ∧
    (sendVoiceRequest truncEnv).1 = true ∧
    (processVoiceInteraction ⟨"", ""⟩ ⟨2000, truncEnv, true⟩).2.1 =
      [SystemState.RECORDING, SystemState.PROCESSING, SystemState.PLAYING,
       SystemState.IDLE] := by
  decide

/-- C1 amended.  When connect, response arrival, status 200, a positive
`Content-Length` and the file open all succeed, `sendVoiceRequest` returns
success if and only if at least one body byte was stored: a short read with
zero bytes stored fails, but a short read with one or more bytes stored
returns success (and playback is then started on the truncated file). -/
theorem sendVoiceRequest_short_read (env : HttpEnv)
    (h1 : env.connectOk = true) (h2 : env.responded = true)
    (h3 : env.statusCode = 200) (h4 : 0 < env.contentLength)
    (h5 : env.fileOpenOk = true) :
    (sendVoiceRequest env).1 = true ↔
      0 < downloadLoop env.contentLength env.bodyEvents 0 := by
  simp [sendVoiceRequest, h1, h2, h3, h4, h5]

/-- Environment in which the whole declared body arrives. -/
def fullEnv : HttpEnv :=
  { connectOk := true, responded := true, statusCode := 200, xSessionId := "abc",
    contentLength := 5, fileOpenOk := true, bodyEvents := [(true, 5)] }

/-- Witness for the amended C1 at a concrete fully-delivered environment. -/
theorem sendVoiceRequest_short_read_witness :
    (fullEnv.connectOk = true ∧ fullEnv.responded = true ∧
      fullEnv.statusCode = 200 ∧ 0 < fullEnv.contentLength ∧
      fullEnv.fileOpenOk = true) ∧
    ((sendVoiceRequest fullEnv).1 = true ↔
      0 < downloadLoop fullEnv.contentLength fullEnv.bodyEvents 0) :=
  ⟨⟨rfl, rfl, rfl, by decide, rfl⟩,
    sendVoiceRequest_short_read fullEnv rfl rfl rfl (by decide) rfl⟩

/-! ### Theorems about the minimum capture gate (C6) -/

/-- C6.  When `recordAudio` returns fewer than `MIN_CAPTURE = 1000` bytes,
`sendVoiceRequest` is never reached and the controller goes from RECORDING
directly back to IDLE. -/
theorem minCapture_no_http (c : Controller) (env : InteractionEnv)
    (h : env.recorded < MIN_CAPTURE) :
    (processVoiceInteraction c env).2.2 = false ∧
    (processVoiceInteraction c env).2.1 = [SystemState.RECORDING, SystemState.IDLE] := by
  have h' : env.recorded < 1000 := h
  simp [processVoiceInteraction, h']

/-- A 500-byte capture (below `MIN_CAPTURE`). -/
def shortEnv : InteractionEnv := ⟨500, fullEnv, true⟩

/-- Witness for C6 at the concrete 500-byte capture. -/
theorem minCapture_no_http_witness :
    shortEnv.recorded < MIN_CAPTURE ∧
    ((processVoiceInteraction ⟨"s", "s"⟩ shortEnv).2.2 = false ∧
     (processVoiceInteraction ⟨"s", "s"⟩ shortEnv).2.1 =
       [SystemState.RECORDING, SystemState.IDLE]) :=
  ⟨by decide, minCapture_no_http ⟨"s", "s"⟩ shortEnv (by decide)⟩

/-! ### Theorems about session identifier mutation (C7) -/

/-- Case analysis of `processVoiceInteraction`'s effect on the session state:
either both stores are untouched, or the request succeeded with a non-empty
identifier different from the cached one and both stores now hold it. -/
theorem processVoiceInteraction_session_cases (c : Controller) (env : InteractionEnv) :
    (processVoiceInteraction c env).1 = c ∨
    ((sendVoiceRequest env.http).1 = true ∧
     0 < (sendVoiceRequest env.http).2.length ∧
     (sendVoiceRequest env.http).2 ≠ c.sessionId ∧
     (processVoiceInteraction c env).1 =
       ⟨(sendVoiceRequest env.http).2, (sendVoiceRequest env.http).2⟩) := by
  simp only [processVoiceInteraction]
  by_cases h1 : env.recorded < 1000
  · simp [h1]
  · rw [if_neg h1]
    by_cases h2 : (sendVoiceRequest env.http).1 = false
    · simp [h2]
    · rw [if_neg h2]
      by_cases h3 : 0 < (sendVoiceRequest env.http).2.length ∧
          (sendVoiceRequest env.http).2 ≠ c.sessionId
      · right
        refine ⟨by simpa using h2, h3.1, h3.2, ?_⟩
        by_cases h4 : env.playOk = false <;> simp [h3, h4]
      · left
        by_cases h4 : env.playOk = false <;> simp [h3, h4]

/-- Environment for the C7 counterexample: the server answers 200 with
`X-Session-Id: sess-new` and `Content-Length: 9000` but closes after 3000
body bytes. -/
def truncEnv7 : HttpEnv :=
  { connectOk := true, responded := true, statusCode := 200, xSessionId := "sess-new",
    contentLength := 9000, fileOpenOk := true, bodyEvents := [(true, 3000), (false, 0)] }

/-- C7 counterexample.  In an interaction whose body download is truncated
(3000 of 9000 declared bytes received), the session identifier is still
mutated in RAM and in the non-volatile store, because the truncated download
is treated as success — contradicting the claim that on a truncated body the
session identifier is unchanged. -/
theorem sessionId_changed_on_truncated_body :
    downloadLoop truncEnv7.contentLength truncEnv7.bodyEvents 0 = 3000 ∧
    3000 < truncEnv7.contentLength ∧
    (processVoiceInteraction ⟨"old", "old"⟩ ⟨2000, truncEnv7, true⟩).1 =
      ⟨"sess-new", "sess-new"⟩ := by
  decide

/-- C7 amended.  The session identifier (RAM and non-volatile) is mutated
only when `sendVoiceRequest` reports success and returns a non-empty
identifier different from the cached one, and whenever `sendVoiceRequest`
reports failure (connect failure, timeout, non-200 status, missing
`Content-Length`, zero body bytes stored, file-open failure) both stores are
unchanged; a truncated body with at least one stored byte counts as success
and may therefore update the identifier. -/
theorem sessionId_mutation (c : Controller) (env : InteractionEnv) :
    ((sendVoiceRequest env.http).1 = false → (processVoiceInteraction c env).1 = c) ∧
    ((processVoiceInteraction c env).1 ≠ c →
      (sendVoiceRequest env.http).1 = true ∧
      0 < (sendVoiceRequest env.http).2.length ∧
      (sendVoiceRequest env.http).2 ≠ c.sessionId ∧
      (processVoiceInteraction c env).1.sessionId = (sendVoiceRequest env.http).2 ∧
      (processVoiceInteraction c env).1.nvsSession = (sendVoiceRequest env.http).2) := by
  rcases processVoiceInteraction_session_cases c env with h | ⟨ho, hl, hne, he⟩
  · exact ⟨fun _ => h, fun hc => absurd h hc⟩
  · constructor
    · intro hf
      rw [hf] at ho
      exact Bool.noConfusion ho
    · intro _
      exact ⟨ho, hl, hne, by rw [he], by rw [he]⟩

/-- Environment whose request fails (connect failure). -/
def failEnv : InteractionEnv :=
  ⟨2000, ⟨false, true, 200, "zz", 5, true, []⟩, true⟩

/-- Witness for the amended C7: a failing interaction leaves the session
state untouched. -/
theorem sessionId_mutation_witness :
    (sendVoiceRequest failEnv.http).1 = false ∧
    (processVoiceInteraction ⟨"cur", "cur"⟩ failEnv).1 = ⟨"cur", "cur"⟩ :=
  ⟨by decide, (sessionId_mutation ⟨"cur", "cur"⟩ failEnv).1 (by decide)⟩

/-! ### The main loop: Wi-Fi reconnection, button consumption, debounce
(main.cpp, loop, lines 170-202; buttonISR, lines 95-98)

`millis()` is modelled as an unbounded monotonic counter (its 32-bit
wrap-around after 49 days is not modelled).  A `LoopEv.pass` is one execution
of `loop()`; ISR edges between passes are separate `LoopEv.edge` events, and
an ISR edge firing inside the blocking `setupWiFi` call of the reconnection
block (while `currentState` is CONNECTING) is carried by the pass itself.
An interaction triggered by a pass runs to completion inside that pass
(`processVoiceInteraction` is synchronous and ends with `currentState` back
at IDLE); edges firing during it are delivered as `edge` events before the
next pass. -/

/-- Loop state relevant to button handling, with two histories: `entries`
records the `millis()` values at which `processVoiceInteraction` was entered
(RECORDING entries), and `edgeLog` records each ISR edge together with the
value of `currentState` at the instant the edge fired. -/
structure LoopSt where
  state : SystemState
  buttonPressed : Bool
  buttonPressStart : Nat
  lastDebounceTime : Nat
  entries : List Nat
  edgeLog : List (Nat × SystemState)
deriving Repr, DecidableEq

/-- Event of the main loop: an ISR edge between passes, or one pass of
`loop()` with the `millis()` value at its button check, the Wi-Fi status at
its head, the association status after a possible `setupWiFi`, and an
optional ISR edge firing inside `setupWiFi`. -/
inductive LoopEv where
  | edge (t : Nat)
  | pass (now : Nat) (wifiUp : Bool) (reconnectOk : Bool) (edgeDuringWifi : Option Nat)
deriving Repr, DecidableEq

/-- `buttonISR`: sets `buttonPressed = true` and `buttonPressStart = millis()`;
the log entry remembers the controller state at that instant. -/
def edgeStep (s : LoopSt) (t : Nat) : LoopSt :=
  { s with buttonPressed := true, buttonPressStart := t,
           edgeLog := s.edgeLog ++ [(t, s.state)] }

/-- One pass of `loop()`: the Wi-Fi reconnection block (entered only when the
link is down and the state is not already CONNECTING), then the button block
(`if (buttonPressed && currentState == STATE_IDLE)`), which clears the flag
before the debounce comparison
`millis() - lastDebounceTime > BUTTON_DEBOUNCE_MS` and, when it passes,
records the RECORDING entry. -/
def passStep (s : LoopSt) (now : Nat) (wifiUp reconnectOk : Bool)
    (edgeDuringWifi : Option Nat) : LoopSt :=
  let s1 :=
    if wifiUp = false ∧ s.state ≠ SystemState.CONNECTING then
      let sA := { s with state := SystemState.CONNECTING }
      let sB := match edgeDuringWifi with
        | some t => edgeStep sA t
        | none => sA
      if reconnectOk = true then { sB with state := SystemState.IDLE } else sB
    else
      match edgeDuringWifi with
      | some t => edgeStep s t
      | none => s
  if s1.buttonPressed = true ∧ s1.state = SystemState.IDLE then
    let s2 := { s1 with buttonPressed := false }
    if BUTTON_DEBOUNCE_MS < now - s2.lastDebounceTime then
      { s2 with lastDebounceTime := now, entries := s2.entries ++ [now] }
    else s2
  else s1

/-- Dispatch one loop event. -/
def loopStep (s : LoopSt) : LoopEv → LoopSt
  | LoopEv.edge t => edgeStep s t
  | LoopEv.pass now wifiUp reconnectOk e => passStep s now wifiUp reconnectOk e

/-- Run the main loop over a list of events. -/
def runLoop (s : LoopSt) (evs : List LoopEv) : LoopSt :=
  evs.foldl loopStep s

/-- Loop state on entry to `loop()` after `setup()`: IDLE, no pending press,
`lastDebounceTime = 0`. -/
def initLoopSt : LoopSt :=
  ⟨SystemState.IDLE, false, 0, 0, [], []⟩

/-! ### Theorems about the debounce behaviour (C8) -/

/-- Trace for the C8 counterexample: an edge at `t = 1000` consumed at
`millis() = 1010` (starting a long voice interaction), a second edge at
`t = 1045` — 45 ms after the first, e.g. a release bounce during the
interaction — consumed by the next pass at `millis() = 1200` after the
interaction finished. -/
def debounceCexTrace : List LoopEv :=
  [LoopEv.edge 1000, LoopEv.pass 1010 true true none,
   LoopEv.edge 1045, LoopEv.pass 1200 true true none]

/-- C8 counterexample.  The trace contains exactly two button edges, whose
interrupt timestamps 1000 and 1045 lie within `BUTTON_DEBOUNCE_MS = 50` of
each other, yet the controller enters RECORDING twice (at consume times 1010
and 1200): the debounce comparison uses the consume times
(`millis() - lastDebounceTime` at the button check, with `pressTime` unused),
not the interrupt timestamps. -/
theorem debounce_edges_two_entries_cex :
    (runLoop initLoopSt debounceCexTrace).edgeLog =
      [(1000, SystemState.IDLE), (1045, SystemState.IDLE)] ∧
    1045 - 1000 ≤ BUTTON_DEBOUNCE_MS ∧
    (runLoop initLoopSt debounceCexTrace).entries = [1010, 1200] := by
  decide

/-- Invariant backing the debounce guarantee: recorded entry times form a
chain spaced by more than `BUTTON_DEBOUNCE_MS`, all at or before
`lastDebounceTime`. -/
def DebounceInv (s : LoopSt) : Prop :=
  List.Chain' (fun a b => a + BUTTON_DEBOUNCE_MS < b) s.entries ∧
  ∀ x ∈ s.entries, x ≤ s.lastDebounceTime

theorem edgeStep_inv (s : LoopSt) (t : Nat) (h : DebounceInv s) :
    DebounceInv (edgeStep s t) := h

theorem passStep_inv (s : LoopSt) (now : Nat) (wifiUp reconnectOk : Bool)
    (e : Option Nat) (h : DebounceInv s) :
    DebounceInv (passStep s now wifiUp reconnectOk e) := by
  unfold passStep
  have hs1 : ∀ s1 : LoopSt, s1.entries = s.entries →
      s1.lastDebounceTime = s.lastDebounceTime →
      DebounceInv (if s1.buttonPressed = true ∧ s1.state = SystemState.IDLE then
        (let s2 := { s1 with buttonPressed := false };
         if BUTTON_DEBOUNCE_MS < now - s2.lastDebounceTime then
           { s2 with lastDebounceTime := now, entries := s2.entries ++ [now] }
         else s2)
      else s1) := by
    intro s1 he hl
    split
    · dsimp only
      split
      · next hdb =>
        constructor
        · rw [List.chain'_append]
          refine ⟨(he ▸ h.1), List.chain'_singleton _, ?_⟩
          intro x hx y hy
          simp at hy
          subst hy
          have hx' : x ∈ s.entries := by
            rw [he] at hx
            exact (List.mem_of_mem_getLast? hx)
          have := h.2 x hx'
          rw [hl] at hdb
          unfold BUTTON_DEBOUNCE_MS at hdb ⊢
          omega
        · intro x hx
          simp only [he] at hx
          show x ≤ now
          rcases List.mem_append.mp hx with hx' | hx'
          · have := h.2 x hx'
            rw [hl] at hdb
            omega
          · simp at hx'
            omega
      · exact ⟨he ▸ h.1, fun x hx => hl ▸ (he ▸ h.2) x hx⟩
    · exact ⟨he ▸ h.1, fun x hx => hl ▸ (he ▸ h.2) x hx⟩
  split
  · next hw =>
    dsimp only
    split
    · apply hs1 <;> cases e <;> rfl
    · apply hs1 <;> cases e <;> rfl
  · apply hs1 <;> cases e <;> rfl

theorem loopStep_inv (s : LoopSt) (e : LoopEv) (h : DebounceInv s) :
    DebounceInv (loopStep s e) := by
  cases e with
  | edge t => exact edgeStep_inv s t h
  | pass now w r eo => exact passStep_inv s now w r eo h

theorem runLoop_inv (evs : List LoopEv) :
    ∀ s : LoopSt, DebounceInv s → DebounceInv (runLoop s evs) := by
  induction evs with
  | nil => intro s h; exact h
  | cons e rest ih => intro s h; exact ih _ (loopStep_inv s e h)

/-- C8 amended.  What the code guarantees is spacing of the consume times:
any two successive entries into RECORDING are separated by strictly more than
`BUTTON_DEBOUNCE_MS` of controller time, so two presses consumed within the
debounce window produce at most one entry; two edges whose interrupt
timestamps lie within the window can still produce two entries when a voice
interaction runs between their consumptions. -/
theorem recording_entries_debounced (evs : List LoopEv) :
    List.Chain' (fun a b => a + BUTTON_DEBOUNCE_MS < b)
      (runLoop initLoopSt evs).entries :=
  (runLoop_inv evs initLoopSt
    ⟨List.chain'_nil, fun x hx => absurd hx (List.not_mem_nil x)⟩).1

/-! ### Theorems about presses during CONNECTING (C9) -/

/-- Trace for the C9 counterexample: the link is down at the head of a pass,
the controller enters CONNECTING, a button edge fires at `t = 900` inside the
blocking `setupWiFi` (while the state is CONNECTING), `setupWiFi` ends
associated so the state returns to IDLE, and the button block of the same
pass (at `millis() = 1000`) consumes the retained press. -/
def connectingCexTrace : List LoopEv :=
  [LoopEv.pass 1000 false true (some 900)]

/-- C9 counterexample.  The only edge of the trace fires while the controller
state is CONNECTING, yet a RECORDING entry occurs (at time 1000) once the
controller has returned to IDLE in the same pass: the press flag is not
cleared while it is ignored, so the press is not ignored after all. -/
theorem connecting_press_recording_cex :
    (runLoop initLoopSt connectingCexTrace).edgeLog =
      [(900, SystemState.CONNECTING)] ∧
    (runLoop initLoopSt connectingCexTrace).entries = [1000] := by
  decide

/-- A pass or edge taken from a CONNECTING state leaves the state CONNECTING
and adds no RECORDING entry: the reconnection block requires
`currentState != STATE_CONNECTING` and the button block requires
`currentState == STATE_IDLE`. -/
theorem loopStep_connecting (s : LoopSt) (e : LoopEv)
    (h : s.state = SystemState.CONNECTING) :
    (loopStep s e).state = SystemState.CONNECTING ∧
    (loopStep s e).entries = s.entries := by
  cases e with
  | edge t => exact ⟨h, rfl⟩
  | pass now w r eo => cases eo <;> simp [loopStep, passStep, edgeStep, h]

/-- C9 amended.  While the controller remains in CONNECTING across loop
passes, button presses never cause an entry into RECORDING (and the state
stays CONNECTING); the original claim fails only in the case where Wi-Fi
reassociates within the very pass that entered CONNECTING, because the
retained press flag is then consumed after the return to IDLE. -/
theorem connecting_state_absorbs (evs : List LoopEv) :
    ∀ s : LoopSt, s.state = SystemState.CONNECTING →
      (runLoop s evs).state = SystemState.CONNECTING ∧
      (runLoop s evs).entries = s.entries := by
  induction evs with
  | nil => intro s h; exact ⟨h, rfl⟩
  | cons e rest ih =>
    intro s h
    have hstep := loopStep_connecting s e h
    have hrest := ih (loopStep s e) hstep.1
    exact ⟨hrest.1, hrest.2.trans hstep.2⟩

/-- A concrete CONNECTING state. -/
def connW : LoopSt := ⟨SystemState.CONNECTING, false, 0, 0, [], []⟩

/-- Witness for the amended C9 on a concrete CONNECTING state and trace
(the edge at 100 and the failed-reconnection pass at 200 produce no entry). -/
theorem connecting_state_absorbs_witness :
    connW.state = SystemState.CONNECTING ∧
    ((runLoop connW [LoopEv.edge 100, LoopEv.pass 200 false true (some 150)]).state =
        SystemState.CONNECTING ∧
     (runLoop connW [LoopEv.edge 100, LoopEv.pass 200 false true (some 150)]).entries =
        connW.entries) :=
  ⟨rfl, connecting_state_absorbs [LoopEv.edge 100, LoopEv.pass 200 false true (some 150)]
    connW rfl⟩

end VoiceAssistant
